import Mathlib

/-!
Shallow embedding of the evaluation engine of
`ontology_quiz_generator.py` (with the reference-text lookup built by
`python_ontology.py`), and proofs of the specified properties.

Modelling conventions:
* Python similarity scores and metrics are machine floats in the source;
  they are modelled as rationals (`ℚ`).  Every arithmetic step the code
  performs on them is a division of small integers or a comparison, all
  exact at these magnitudes, so `ℚ` is faithful for the comparisons and
  equalities the properties state.
* Python's unguarded `/` raises `ZeroDivisionError` on a zero
  denominator; such a division is modelled with `Option` (`none` = the
  call raises).
* Python `dict`s are modelled as association lists with `dict`-style
  lookup/update; Python `set`s of tokens are modelled as `Finset String`.
* The modelled similarity backend is the lexical fallback branch of
  `bert_similarity` (`MODEL is None`), and the modelled metrics branch is
  the local `compute_metrics` (`_HAS_SKLEARN = False`); the other
  branches delegate to external libraries (sentence-transformers,
  sklearn) that are not part of this repository.
* The source's `recall` local variable and metrics key is written
  `recall'` here because `recall` is reserved in this environment.
-/

namespace OntologyQuiz

/-! ## Tokenization and the lexical similarity fallback -/

/-- One pass of Python's no-argument `str.split()` over the character
list: runs of whitespace separate tokens and never produce empty tokens.
`acc` holds the characters of the token currently being read, reversed.
Structural recursion keeps it kernel-evaluable. -/
def splitWsAux : List Char → List Char → List String
  | [], acc => if acc = [] then [] else [String.mk acc.reverse]
  | c :: rest, acc =>
    if c.isWhitespace then
      if acc = [] then splitWsAux rest []
      else String.mk acc.reverse :: splitWsAux rest []
    else splitWsAux rest (c :: acc)

/-- Python `text.lower().split()`: lower-case, then whitespace-tokenize
dropping empty tokens.  `Char.toLower` agrees with Python `str.lower` on
the ASCII texts of this repository. -/
def pyTokens (text : String) : List String :=
  splitWsAux (text.data.map Char.toLower) []

/-- `set(text.lower().split())` from `bert_similarity`: the set of
lower-cased whitespace tokens of a text. -/
def tokenSet (text : String) : Finset String :=
  (pyTokens text).toFinset

/-- `bert_similarity` (ontology_quiz_generator.py lines 83-96) in its
lexical fallback branch (`MODEL is None or util is None`): Jaccard
similarity of the two token sets, with `1.0` when both sets are empty
(`if not set_a and not set_b`). -/
def bert_similarity (text_a text_b : String) : ℚ :=
  let set_a := tokenSet text_a
  let set_b := tokenSet text_b
  if set_a = ∅ ∧ set_b = ∅ then 1
  else ((set_a ∩ set_b).card : ℚ) / ((set_a ∪ set_b).card : ℚ)

/-! ## Fallback metrics computation -/

/-- Python's `/` on numbers: `none` models the `ZeroDivisionError`
raised on a zero denominator. -/
def pydiv (a b : ℚ) : Option ℚ :=
  if b = 0 then none else some (a / b)

/-- `compute_metrics` (ontology_quiz_generator.py lines 24-33), the
fallback used when sklearn is unavailable.  The `accuracy` division is
written unguarded in the source, so it is modelled with `pydiv`; the
`precision`, `recall` and `f1` divisions carry the source's
`if denominator else 0.0` guards.  Result order:
(accuracy, precision, recall, f1). -/
def compute_metrics (y_true y_pred : List Int) : Option (ℚ × ℚ × ℚ × ℚ) :=
  let pairs := y_true.zip y_pred
  let tp : ℚ := ((pairs.filter fun q => q.1 == 1 && q.2 == 1).length : ℚ)
  let fp : ℚ := ((pairs.filter fun q => q.1 == 0 && q.2 == 1).length : ℚ)
  let fn : ℚ := ((pairs.filter fun q => q.1 == 1 && q.2 == 0).length : ℚ)
  let tn : ℚ := ((pairs.filter fun q => q.1 == 0 && q.2 == 0).length : ℚ)
  match pydiv (tp + tn) (tp + fp + fn + tn) with
  | none => none
  | some accuracy =>
    let precision := if tp + fp ≠ 0 then tp / (tp + fp) else 0
    let recall' := if tp + fn ≠ 0 then tp / (tp + fn) else 0
    let f1 :=
      if precision + recall' ≠ 0 then 2 * precision * recall' / (precision + recall')
      else 0
    some (accuracy, precision, recall', f1)

/-! ## The ontology and the reference-text lookup

`python_ontology.py` builds a static tree of `OntologyNode`s; the quiz
generator only ever reads each node's `name` and `description` (through
`ontology_as_dict`), so the `difficulty`, `examples` and `relationships`
fields, which no modelled computation reads, are not carried here. -/

/-- A node of the Python ontology: name, description, children. -/
inductive OntologyNode where
  | mk (name description : String) (children : List OntologyNode)

/-- The `name` field of a node. -/
def OntologyNode.name : OntologyNode → String
  | .mk n _ _ => n

/-- The `description` field of a node. -/
def OntologyNode.description : OntologyNode → String
  | .mk _ d _ => d

/-- `build_python_ontology` (python_ontology.py lines 35-381): the full
static ontology tree, names and descriptions verbatim from the source,
children exactly as assembled there (note `Concurrency` is attached to
the root, not to `CoreLanguage`). -/
def build_python_ontology : OntologyNode :=
  let numbers := OntologyNode.mk "Numbers" "Integers, floats and numeric operations." []
  let strings := OntologyNode.mk "Strings" "Text sequences and related operations." []
  let lists := OntologyNode.mk "Lists" "Mutable ordered collections." []
  let tuples := OntologyNode.mk "Tuples" "Immutable ordered collections." []
  let dictionaries := OntologyNode.mk "Dictionaries" "Key-value mappings." []
  let sets := OntologyNode.mk "Sets" "Unordered collections of unique elements." []
  let booleans := OntologyNode.mk "Booleans" "True/False values used in logic." []
  let arithmetic := OntologyNode.mk "Arithmetic"
    "Basic mathematical operations such as addition and subtraction." []
  let keywords := OntologyNode.mk "Keywords"
    "Reserved words that have special meaning in Python syntax." []
  let builtins_node := OntologyNode.mk "Builtins"
    "Common functions that are always available in Python." []
  let modules := OntologyNode.mk "Modules"
    "Organizing and importing reusable pieces of code." []
  let data_types := OntologyNode.mk "DataTypes"
    "Primitive and composite types available in Python."
    [numbers, strings, lists, tuples, dictionaries, sets, booleans, arithmetic,
      keywords, builtins_node, modules]
  let conditions := OntologyNode.mk "Conditions" "if/elif/else statements." []
  let loops := OntologyNode.mk "Loops" "for and while loops." []
  let control_structures := OntologyNode.mk "ControlStructures"
    "Flow control statements and loops." [conditions, loops]
  let functions := OntologyNode.mk "Functions" "Function definitions and calls." []
  let classes := OntologyNode.mk "Classes" "Object-oriented programming with classes." []
  let fileio := OntologyNode.mk "FileIO" "Reading from and writing to files on disk." []
  let exceptions := OntologyNode.mk "Exceptions"
    "Handling errors with try/except blocks." []
  let concurrency := OntologyNode.mk "Concurrency"
    "Running multiple operations at the same time." []
  let core := OntologyNode.mk "CoreLanguage" "Fundamental Python syntax and features."
    [data_types, control_structures, functions, classes, fileio, exceptions]
  let json_mod := OntologyNode.mk "json" "JSON encoding and decoding." []
  let csv_mod := OntologyNode.mk "csv" "CSV reading and writing." []
  let stdlib := OntologyNode.mk "StandardLibrary"
    "Commonly used modules that ship with Python." [json_mod, csv_mod]
  let decorators := OntologyNode.mk "Decorators"
    "Functions that modify other functions or methods." []
  let functional := OntologyNode.mk "FunctionalProgramming"
    "Using functions as first-class objects and related paradigms." [decorators]
  let searching := OntologyNode.mk "Searching" "Techniques such as binary search." []
  let sorting := OntologyNode.mk "Sorting" "Algorithms that order data." []
  let algorithms := OntologyNode.mk "Algorithms"
    "General techniques for solving computational problems." []
  let ds_algo := OntologyNode.mk "DataStructuresAlgorithms"
    "Classic data structures and algorithms." [searching, sorting, algorithms]
  let flask := OntologyNode.mk "Flask" "Lightweight WSGI web application framework." []
  let django := OntologyNode.mk "Django"
    "Full-featured web framework for large applications." []
  let web := OntologyNode.mk "WebFrameworks" "Popular Python web frameworks."
    [flask, django]
  let numpy_node := OntologyNode.mk "NumPy" "Numerical computing with arrays." []
  let pandas_node := OntologyNode.mk "Pandas" "Data analysis and manipulation library." []
  let matplotlib_node := OntologyNode.mk "Matplotlib"
    "2D plotting library for creating visualizations." []
  let data_science := OntologyNode.mk "DataScienceLibraries"
    "Libraries used for data analysis and visualization."
    [numpy_node, pandas_node, matplotlib_node]
  let tensorflow_node := OntologyNode.mk "TensorFlow"
    "End-to-end platform for machine learning." []
  let pytorch_node := OntologyNode.mk "PyTorch"
    "Deep learning framework emphasizing flexibility." []
  let ml := OntologyNode.mk "MachineLearning"
    "Frameworks for building machine learning models." [tensorflow_node, pytorch_node]
  let unittest_node := OntologyNode.mk "unittest" "Built-in unit testing framework." []
  let pytest_node := OntologyNode.mk "pytest" "Popular third-party testing framework." []
  let testing := OntologyNode.mk "TestingDebugging"
    "Tools for testing and debugging Python code." [unittest_node, pytest_node]
  let venv_node := OntologyNode.mk "VirtualEnvironments"
    "Isolated Python environments for dependency management." []
  let packaging_node := OntologyNode.mk "Packaging"
    "Creating distributable Python packages." []
  let devops := OntologyNode.mk "DevOps"
    "Practices for packaging and deploying Python applications."
    [venv_node, packaging_node]
  OntologyNode.mk "PythonProgramming"
    "Comprehensive ontology covering Python concepts and their relationships."
    [core, stdlib, functional, ds_algo, web, data_science, ml, concurrency,
      testing, devops]

mutual

/-- All nodes of a tree, the node itself first (`iter_nodes` of the
source enumerates the same collection with an explicit stack; since all
node names in the built ontology are distinct, the dictionary formed
from the enumeration does not depend on the order, so a structural
traversal is used here). -/
def allNodes : OntologyNode → List OntologyNode
  | .mk n d cs => .mk n d cs :: allNodesList cs

/-- All nodes of a forest, in order. -/
def allNodesList : List OntologyNode → List OntologyNode
  | [] => []
  | c :: cs => allNodes c ++ allNodesList cs

end

/-- `ontology_as_dict` (python_ontology.py lines 393-395): the mapping
from node names to descriptions, as an association list. -/
def ontology_as_dict (root : OntologyNode) : List (String × String) :=
  (allNodes root).map fun n => (n.name, n.description)

/-- Python `d[k]`-with-default, i.e. `d.get(k, default)`. -/
def dict_get (m : List (String × String)) (k default : String) : String :=
  match m.find? (fun p => p.1 == k) with
  | some p => p.2
  | none => default

/-- One key of a Python `dict.update`: replace the value if the key is
present, otherwise append the pair. -/
def dict_update_one (m : List (String × String)) (k v : String) :
    List (String × String) :=
  if m.any (fun p => p.1 == k) then m.map (fun p => if p.1 == k then (k, v) else p)
  else m ++ [(k, v)]

/-- Python `dict.update` over a list of key-value pairs. -/
def dict_update (m entries : List (String × String)) : List (String × String) :=
  entries.foldl (fun acc p => dict_update_one acc p.1 p.2) m

/-- `LEARNING_MATERIALS` (ontology_quiz_generator.py lines 46-64): the
ontology descriptions, updated with four additional topics. -/
def LEARNING_MATERIALS : List (String × String) :=
  dict_update (ontology_as_dict build_python_ontology)
    [("Algorithms",
      "Algorithms are step-by-step procedures for solving problems. In Python, you can implement algorithms for sorting, searching, and manipulating data."),
     ("RelationalOperator",
      "In Python, relational operators compare two values and return a Boolean result (True or False)."),
     ("LogicalOperator",
      "In Python, logical operators combine multiple conditions into a single Boolean result."),
     ("Variable",
      "In Python, a variable is a named reference to a value stored in memory.")]

/-! ## Materials, MCQs, evaluation -/

/-- One multiple-choice question, as grouped into the bank by
`load_mcq_bank`. -/
structure MCQ where
  question : String
  options : List String
  answer : String
  difficulty : String
deriving DecidableEq

/-- The MCQ bank: Python dict from domain to its list of questions. -/
def MCQBank := List (String × List MCQ)

/-- `generate_learning_material` (lines 99-101):
`LEARNING_MATERIALS.get(domain, "No materials available for this topic.")`. -/
def generate_learning_material (domain : String) : String :=
  dict_get LEARNING_MATERIALS domain "No materials available for this topic."

/-- `generate_mcqs` (lines 104-106): `bank.get(domain, [])`. -/
def generate_mcqs (domain : String) (bank : MCQBank) : List MCQ :=
  match (bank : List (String × List MCQ)).find? (fun p => p.1 == domain) with
  | some p => p.2
  | none => []

/-- `evaluate_material` (lines 109-112): score the material against
`LEARNING_MATERIALS.get(domain, "")`. -/
def evaluate_material (material : String) (domain : String) : ℚ :=
  bert_similarity material (dict_get LEARNING_MATERIALS domain "")

/-- The score `create_evaluation_table` computes for a domain:
`evaluate_material(generate_learning_material(domain), domain)`. -/
def domain_score (domain : String) : ℚ :=
  evaluate_material (generate_learning_material domain) domain

/-! ## The evaluation table -/

/-- One row of the table built by `create_evaluation_table`.  The source
stores the score only as the formatted string `f"{score * 100:.2f}%"`;
the `score` field here keeps the underlying rational, which is what the
properties are about (the float-to-decimal-string rendering itself is
out of scope for the stated properties). -/
structure Row where
  domain : String
  material : String
  score : ℚ
  mcqs : String
  description : String
deriving DecidableEq

/-- The metrics dict returned by `create_evaluation_table` (`recall'`
models the source's `recall` key). -/
@[ext]
structure Metrics where
  accuracy : ℚ
  precision : ℚ
  recall' : ℚ
  f1 : ℚ
deriving DecidableEq

/-- The MCQ text lines accumulated by the loop body of
`create_evaluation_table` (lines 132-138): per question a `"Q: "` line,
one `" - "` line per option, an `"Answer: "` line, and an empty-string
separator line. -/
def mcq_lines (mcqs : List MCQ) : List String :=
  mcqs.foldl
    (fun lines mcq =>
      lines ++ ["Q: " ++ mcq.question] ++ mcq.options.map (fun opt => " - " ++ opt) ++
        ["Answer: " ++ mcq.answer] ++ [""])
    []

/-- The body of the `for domain in domains` loop of
`create_evaluation_table` (lines 124-156): the table row appended for
`domain`, together with the `y_true` entry (always `1`) and the `y_pred`
entry (`1 if score >= threshold else 0`) appended for it. -/
def eval_step (mcq_bank : MCQBank) (threshold : ℚ) (domain : String) :
    Row × Int × Int :=
  let material := generate_learning_material domain
  let score := evaluate_material material domain
  let mcqs := generate_mcqs domain mcq_bank
  let y_pred : Int := if score ≥ threshold then 1 else 0
  let mcq_text := String.intercalate "\n" (mcq_lines mcqs)
  let description :=
    if score > 9/10 then "Excellent alignment with reference material."
    else if score > 7/10 then "Good alignment but could improve in specific areas."
    else "Moderate alignment, requires improvements in content generation."
  (⟨domain, material, score, mcq_text, description⟩, 1, y_pred)

/-- `create_evaluation_table` (lines 115-174) in the sklearn-free branch:
build one row plus one `(y_true, y_pred)` pair per domain, then derive
the metrics with `compute_metrics`.  `none` models the
`ZeroDivisionError` the metrics computation raises when the label lists
are empty.  The source's `threshold` parameter defaults to `0.9`; it is
explicit here. -/
def create_evaluation_table (domains : List String) (mcq_bank : MCQBank)
    (threshold : ℚ) : Option (List Row × Metrics) :=
  let steps := domains.map (eval_step mcq_bank threshold)
  let table := steps.map (fun s => s.1)
  let y_true := steps.map (fun s => s.2.1)
  let y_pred := steps.map (fun s => s.2.2)
  match compute_metrics y_true y_pred with
  | none => none
  | some (acc, prec, rec', f1) => some (table, ⟨acc, prec, rec', f1⟩)

/-! ## Definitions used only in statements -/

/-- Modelled from the spec: the Jaccard index |A ∩ B| / |A ∪ B| of two
finite token sets, defined as 1.0 when both sets are empty. -/
def jaccard_index_spec (A B : Finset String) : ℚ :=
  if A = ∅ ∧ B = ∅ then 1 else ((A ∩ B).card : ℚ) / ((A ∪ B).card : ℚ)

/-- Modelled from the spec: the formatted block of one question — a
`"Q: "` line, one `" - "` line per option, an `"Answer: "` line, and a
trailing blank-line separator. -/
def mcq_block (mcq : MCQ) : List String :=
  ("Q: " ++ mcq.question) :: (mcq.options.map fun opt => " - " ++ opt) ++
    ["Answer: " ++ mcq.answer, ""]

/-- The row `create_evaluation_table` produces for the domain "Lists"
when the bank holds no questions for it: the ontology supplies the
reference text, which scores 1 against itself under the lexical
backend. -/
def listsRow : Row :=
  ⟨"Lists", "Mutable ordered collections.", 1, "",
    "Excellent alignment with reference material."⟩

/-! ## Sanity of the lookup model -/

/-- All node names of the built ontology are distinct, so the mapping
`ontology_as_dict` builds is independent of the traversal order (the
source's explicit stack enumerates the same nodes in a different
order). -/
theorem ontology_names_nodup :
    ((allNodes build_python_ontology).map OntologyNode.name).Nodup := by
  decide

/-- The keys of the final lookup are distinct, so association-list
lookup agrees with Python dict lookup. -/
theorem learning_materials_keys_nodup :
    (LEARNING_MATERIALS.map Prod.fst).Nodup := by
  decide

/-! ## Basic properties of the lexical scorer -/

/-- The lexical fallback scores any text as fully similar to itself:
either its token set is empty (both-empty branch) or the Jaccard ratio
is `card / card = 1`. -/
theorem bert_similarity_self (t : String) : bert_similarity t t = 1 := by
  unfold bert_similarity
  by_cases h : tokenSet t = ∅
  · simp [h]
  · have hcard : ((tokenSet t).card : ℚ) ≠ 0 := by
      exact_mod_cast fun hc => h (Finset.card_eq_zero.mp (by exact_mod_cast hc))
    simp [h, Finset.inter_self, Finset.union_self, div_self hcard]

/-- Claim C3: under the lexical fallback backend, `score(a, b)` is exactly the
Jaccard index of the sets obtained by lower-casing and
whitespace-tokenizing `a` and `b` (1.0 when both sets are empty); in
particular `score("the cat sat", "the dog sat") = 0.5`. -/
theorem bert_similarity_is_jaccard :
    (∀ a b : String,
        bert_similarity a b = jaccard_index_spec (tokenSet a) (tokenSet b)) ∧
    bert_similarity "the cat sat" "the dog sat" = 1/2 := by
  constructor
  · intro a b
    rfl
  · have h1 : (tokenSet "the cat sat" ∩ tokenSet "the dog sat").card = 2 := by decide
    have h2 : (tokenSet "the cat sat" ∪ tokenSet "the dog sat").card = 4 := by decide
    have h3 : ¬(tokenSet "the cat sat" = ∅ ∧ tokenSet "the dog sat" = ∅) := by decide
    simp only [bert_similarity]
    rw [if_neg h3, h1, h2]
    norm_num

/-- Claim C8: under the lexical fallback backend, `score` is symmetric. -/
theorem bert_similarity_symm (a b : String) :
    bert_similarity a b = bert_similarity b a := by
  simp only [bert_similarity]
  rw [Finset.inter_comm, Finset.union_comm]
  exact if_congr and_comm rfl rfl

/-- Claim C6: for a domain absent from the reference-text lookup,
`evaluate_material` scores the candidate against the empty string. -/
theorem evaluate_material_absent (candidate domain : String)
    (h : (LEARNING_MATERIALS.find? fun p => p.1 == domain) = none) :
    evaluate_material candidate domain = bert_similarity candidate "" := by
  unfold evaluate_material dict_get
  rw [h]

/-- Witness for C6: the domain "Recursion" is absent from the lookup. -/
theorem evaluate_material_absent_witness :
    evaluate_material "hello world" "Recursion" = bert_similarity "hello world" "" :=
  evaluate_material_absent "hello world" "Recursion" (by decide)

/-- A domain present in the lookup is scored against its own reference
text, so its score is 1 under the lexical backend. -/
theorem domain_score_of_present (d : String)
    (h : (LEARNING_MATERIALS.find? fun p => p.1 == d).isSome = true) :
    domain_score d = 1 := by
  obtain ⟨p, hp⟩ := Option.isSome_iff_exists.mp h
  unfold domain_score evaluate_material generate_learning_material dict_get
  rw [hp]
  exact bert_similarity_self p.2

/-! ## The metrics of the all-true label lists -/

/-- A list splits into the elements satisfying a predicate and those
not satisfying it. -/
theorem countP_add_countP_not {α : Type} (l : List α) (p : α → Bool) :
    l.countP p + l.countP (fun a => !(p a)) = l.length := by
  induction l with
  | nil => rfl
  | cons a l ih => cases hpa : p a <;> simp [List.countP_cons, hpa] <;> omega

set_option maxHeartbeats 1000000 in
/-- `compute_metrics` when every true label is 1 and each predicted
label is the indicator of a decidable property: the closed forms of all
four metrics. -/
theorem compute_metrics_all_true {α : Type} (l : List α) (P : α → Prop)
    [DecidablePred P] (h : l ≠ []) :
    ∃ acc prec rec' f1 : ℚ,
      compute_metrics (l.map fun _ => 1) (l.map fun a => if P a then 1 else 0) =
        some (acc, prec, rec', f1) ∧
      acc = ((l.countP fun a => P a : ℕ) : ℚ) / (l.length : ℚ) ∧
      prec = (if (l.countP fun a => P a) ≠ 0 then 1 else 0) ∧
      rec' = acc ∧
      f1 = (if prec + rec' ≠ 0 then 2 * prec * rec' / (prec + rec') else 0) := by
  have hn : (0:ℚ) < (l.length : ℚ) := by
    have : 0 < l.length := List.length_pos.mpr h
    exact_mod_cast this
  have hzip : (l.map fun _ => (1:Int)).zip (l.map fun a => if P a then 1 else 0) =
      l.map fun a => ((1:Int), if P a then (1:Int) else 0) := List.zip_map' _ _ l
  have htp :
      ((l.map fun a => ((1:Int), if P a then (1:Int) else 0)).filter
          fun q => q.1 == 1 && q.2 == 1).length = l.countP fun a => P a := by
    rw [← List.countP_eq_length_filter, List.countP_map]
    refine List.countP_congr fun x _ => ?_
    by_cases hx : P x <;> simp [hx, Function.comp]
  have hfp :
      ((l.map fun a => ((1:Int), if P a then (1:Int) else 0)).filter
          fun q => q.1 == 0 && q.2 == 1).length = 0 := by
    rw [← List.countP_eq_length_filter, List.countP_map]
    simp [Function.comp]
  have hfn :
      ((l.map fun a => ((1:Int), if P a then (1:Int) else 0)).filter
          fun q => q.1 == 1 && q.2 == 0).length =
        l.countP fun a => !(decide (P a)) := by
    rw [← List.countP_eq_length_filter, List.countP_map]
    refine List.countP_congr fun x _ => ?_
    by_cases hx : P x <;> simp [hx, Function.comp]
  have htn :
      ((l.map fun a => ((1:Int), if P a then (1:Int) else 0)).filter
          fun q => q.1 == 0 && q.2 == 0).length = 0 := by
    rw [← List.countP_eq_length_filter, List.countP_map]
    simp [Function.comp]
  have hkk : ((l.countP fun a => P a : ℕ) : ℚ) +
      ((l.countP fun a => !(decide (P a)) : ℕ) : ℚ) = (l.length : ℚ) := by
    rw [← Nat.cast_add, countP_add_countP_not]
  have hPeq : (if ((l.countP fun a => P a : ℕ) : ℚ) ≠ 0 then
        ((l.countP fun a => P a : ℕ) : ℚ) / ((l.countP fun a => P a : ℕ) : ℚ) else 0) =
      (if (l.countP fun a => P a) ≠ 0 then (1:ℚ) else 0) := by
    by_cases hk0 : (l.countP fun a => P a) = 0
    · simp [hk0]
    · have hkq : ((l.countP fun a => P a : ℕ) : ℚ) ≠ 0 := Nat.cast_ne_zero.mpr hk0
      rw [if_pos hkq, if_pos hk0, div_self hkq]
  refine ⟨((l.countP fun a => P a : ℕ) : ℚ) / (l.length : ℚ),
    (if (l.countP fun a => P a) ≠ 0 then 1 else 0),
    ((l.countP fun a => P a : ℕ) : ℚ) / (l.length : ℚ),
    (if (if (l.countP fun a => P a) ≠ 0 then (1:ℚ) else 0) +
          ((l.countP fun a => P a : ℕ) : ℚ) / (l.length : ℚ) ≠ 0 then
        2 * (if (l.countP fun a => P a) ≠ 0 then (1:ℚ) else 0) *
            (((l.countP fun a => P a : ℕ) : ℚ) / (l.length : ℚ)) /
          ((if (l.countP fun a => P a) ≠ 0 then (1:ℚ) else 0) +
            ((l.countP fun a => P a : ℕ) : ℚ) / (l.length : ℚ))
      else 0), ?_, rfl, rfl, rfl, rfl⟩
  simp only [compute_metrics]
  rw [hzip, htp, hfp, hfn, htn]
  simp only [Nat.cast_zero, add_zero]
  rw [hkk]
  unfold pydiv
  rw [if_neg hn.ne', hPeq, if_pos hn.ne']

/-! ## Shape of `create_evaluation_table`'s result -/

set_option maxHeartbeats 1600000 in
/-- For a non-empty domain list, `create_evaluation_table` succeeds; its
rows are the per-domain loop results and its metrics have the closed
forms determined by the count of domains scoring at least the
threshold. -/
theorem create_evaluation_table_eq (domains : List String) (bank : MCQBank)
    (t : ℚ) (h : domains ≠ []) :
    ∃ m : Metrics,
      create_evaluation_table domains bank t =
        some (domains.map fun d => (eval_step bank t d).1, m) ∧
      m.accuracy = ((domains.countP fun d => domain_score d ≥ t : ℕ) : ℚ) /
        (domains.length : ℚ) ∧
      m.precision = (if (domains.countP fun d => domain_score d ≥ t) ≠ 0 then 1 else 0) ∧
      m.recall' = m.accuracy ∧
      m.f1 = (if m.precision + m.recall' ≠ 0 then
          2 * m.precision * m.recall' / (m.precision + m.recall')
        else 0) := by
  obtain ⟨acc, prec, rec', f1, hcm, hacc, hprec, hrec, hf1⟩ :=
    compute_metrics_all_true domains (fun d => domain_score d ≥ t) h
  have h1 : (domains.map (eval_step bank t)).map (fun s => s.2.1) =
      domains.map fun _ => (1:Int) := by
    rw [List.map_map]
    rfl
  have h2 : (domains.map (eval_step bank t)).map (fun s => s.2.2) =
      domains.map fun d => if domain_score d ≥ t then (1:Int) else 0 := by
    rw [List.map_map]
    rfl
  have h3 : (domains.map (eval_step bank t)).map (fun s => s.1) =
      domains.map fun d => (eval_step bank t d).1 := by
    rw [List.map_map]
    rfl
  refine ⟨⟨acc, prec, rec', f1⟩, ?_, hacc, hprec, hrec, hf1⟩
  simp only [create_evaluation_table]
  rw [h1, h2, h3, hcm]

/-- Whenever `create_evaluation_table` succeeds, its rows are exactly
the per-domain loop results, in input order. -/
theorem rows_of_create (domains : List String) (bank : MCQBank) (t : ℚ)
    (rows : List Row) (m : Metrics)
    (h : create_evaluation_table domains bank t = some (rows, m)) :
    rows = domains.map fun d => (eval_step bank t d).1 := by
  simp only [create_evaluation_table] at h
  split at h
  · exact Option.noConfusion h
  · injection h with h'
    rw [Prod.mk.injEq] at h'
    rw [← h'.1, List.map_map]
    rfl

/-- Counting the rows at or above a threshold is counting the domains
whose score is at or above it. -/
theorem filter_score_length (domains : List String) (bank : MCQBank) (t t' : ℚ) :
    ((domains.map fun d => (eval_step bank t d).1).filter
        fun r => r.score ≥ t').length =
      domains.countP fun d => domain_score d ≥ t' := by
  rw [← List.countP_eq_length_filter, List.countP_map]
  rfl

/-- On the empty domain list both label lists are empty, so the
accuracy division of `compute_metrics` has denominator 0 and the
metrics computation fails. -/
theorem create_eval_nil (bank : MCQBank) (t : ℚ) :
    create_evaluation_table [] bank t = none := by
  simp [create_evaluation_table, compute_metrics, pydiv]

/-- Claim C1, counterexample: called on the empty domains sequence, the
fallback metrics computation divides by zero (modelled as `none`), so
the call does not return the all-zero metrics the claim promises. -/
theorem create_evaluation_table_empty_counterexample :
    create_evaluation_table [] [] (9/10) = none := by
  simp [create_evaluation_table, compute_metrics, pydiv]

/-- Claim C1 (amended): for the empty domains sequence the call fails
with a `ZeroDivisionError` — the accuracy division of the fallback
`compute_metrics` is unguarded and its denominator `tp + fp + fn + tn`
is zero; only the precision, recall and f1 divisions are guarded. -/
theorem create_evaluation_table_empty_fails (bank : MCQBank) (t : ℚ) :
    create_evaluation_table [] bank t = none := by
  simp [create_evaluation_table, compute_metrics, pydiv]

/-- Claim C2: for every non-empty domains sequence, accuracy is the
fraction of rows scoring at least the threshold, recall equals
accuracy, precision is 1 exactly when some row scores at least the
threshold and 0 otherwise, and f1 is the harmonic-mean formula with the
zero-denominator guard. -/
theorem create_evaluation_table_metrics (domains : List String) (bank : MCQBank)
    (t : ℚ) (rows : List Row) (m : Metrics) (hne : domains ≠ [])
    (h : create_evaluation_table domains bank t = some (rows, m)) :
    m.accuracy = (((rows.filter fun r => r.score ≥ t).length : ℕ) : ℚ) /
      (rows.length : ℚ) ∧
    m.recall' = m.accuracy ∧
    m.precision = (if ∃ r ∈ rows, r.score ≥ t then 1 else 0) ∧
    m.f1 = (if m.precision + m.recall' ≠ 0 then
        2 * m.precision * m.recall' / (m.precision + m.recall')
      else 0) := by
  obtain ⟨m', hEq, hacc, hprec, hrec, hf1⟩ := create_evaluation_table_eq domains bank t hne
  rw [h] at hEq
  injection hEq with hEq'
  rw [Prod.mk.injEq] at hEq'
  obtain ⟨hrows, hm⟩ := hEq'
  subst hrows
  subst hm
  refine ⟨?_, hrec, ?_, hf1⟩
  · rw [hacc, filter_score_length, List.length_map]
  · rw [hprec]
    refine if_congr ?_ rfl rfl
    constructor
    · intro hne0
      obtain ⟨d, hd, hpd⟩ := List.countP_pos_iff.mp (Nat.pos_of_ne_zero hne0)
      exact ⟨(eval_step bank t d).1, List.mem_map_of_mem _ hd, of_decide_eq_true hpd⟩
    · rintro ⟨r, hr, hscore⟩
      obtain ⟨d, hd, rfl⟩ := List.mem_map.mp hr
      exact Nat.pos_iff_ne_zero.mp
        (List.countP_pos_iff.mpr ⟨d, hd, decide_eq_true hscore⟩)

/-! ## The concrete "Lists" run used by the witnesses -/

/-- When the bank has no entry for "Lists", the loop row for "Lists" is
`listsRow`: ontology reference text as material, score 1, empty MCQ
block, Excellent verdict. -/
theorem eval_step_lists (bank : MCQBank) (t : ℚ)
    (hbank : (bank : List (String × List MCQ)).find? (fun p => p.1 == "Lists") = none) :
    (eval_step bank t "Lists").1 = listsRow := by
  have hscore : evaluate_material (generate_learning_material "Lists") "Lists" = 1 :=
    domain_score_of_present "Lists" (by decide)
  have hmc : generate_mcqs "Lists" bank = [] := by
    unfold generate_mcqs
    rw [hbank]
  simp only [eval_step, listsRow]
  rw [Row.mk.injEq]
  refine ⟨rfl, by decide, hscore, ?_, ?_⟩
  · rw [hmc]
    rfl
  · rw [hscore]
    norm_num

/-- The full result of `create_evaluation_table ["Lists"] [] t` for any
threshold at most 1: the single `listsRow` row and all-1 metrics. -/
theorem create_eval_lists (t : ℚ) (ht : t ≤ 1) :
    create_evaluation_table ["Lists"] [] t = some ([listsRow], ⟨1, 1, 1, 1⟩) := by
  obtain ⟨m, hEq, hacc, hprec, hrec, hf1⟩ :=
    create_evaluation_table_eq ["Lists"] ([] : MCQBank) t (by simp)
  have hs : domain_score "Lists" = 1 := domain_score_of_present "Lists" (by decide)
  have hk : (["Lists"].countP fun d => domain_score d ≥ t) = 1 := by
    rw [List.countP_singleton]
    simp [hs, ht]
  have hrow : (["Lists"].map fun d => (eval_step ([] : MCQBank) t d).1) = [listsRow] := by
    rw [List.map_cons, List.map_nil, eval_step_lists ([] : MCQBank) t rfl]
  have hm : m = ⟨1, 1, 1, 1⟩ := by
    have hacc1 : m.accuracy = 1 := by
      rw [hacc, hk]
      norm_num
    have hprec1 : m.precision = 1 := by
      rw [hprec, hk]
      norm_num
    have hrec1 : m.recall' = 1 := hrec.trans hacc1
    have hf11 : m.f1 = 1 := by
      rw [hf1, hprec1, hrec1]
      norm_num
    ext
    · exact hacc1
    · exact hprec1
    · exact hrec1
    · exact hf11
  rw [hEq, hrow, hm]

/-- Witness for C2 at domains = ["Lists"], empty bank, threshold 0.9:
recall equals accuracy there. -/
theorem create_evaluation_table_metrics_witness :
    (Metrics.mk 1 1 1 1).recall' = (Metrics.mk 1 1 1 1).accuracy :=
  (create_evaluation_table_metrics ["Lists"] [] (9/10) [listsRow] ⟨1, 1, 1, 1⟩
    (by simp) (create_eval_lists (9/10) (by norm_num))).2.1

/-! ## Verdicts -/

/-- The verdict of a loop row is the strict two-cutoff cascade on its
raw score (and nothing else — in particular not the threshold). -/
theorem eval_step_description (bank : MCQBank) (t : ℚ) (d : String) :
    (eval_step bank t d).1.description =
      (if (eval_step bank t d).1.score > 9/10 then
          "Excellent alignment with reference material."
        else if (eval_step bank t d).1.score > 7/10 then
          "Good alignment but could improve in specific areas."
        else "Moderate alignment, requires improvements in content generation.") := rfl

/-- Claim C4: each row's verdict is decided by strict comparisons on
the raw score, independently of the metrics threshold (the first
conjunct: any other threshold yields the same verdict for the same
domain); scores of exactly 0.9 and exactly 0.7 fall through to the
Good and Moderate verdicts respectively. -/
theorem create_evaluation_table_verdicts (domains : List String) (bank : MCQBank)
    (t : ℚ) (rows : List Row) (m : Metrics)
    (h : create_evaluation_table domains bank t = some (rows, m)) :
    ∀ r ∈ rows,
      (∀ t' : ℚ, (eval_step bank t' r.domain).1.description = r.description) ∧
      (r.score > 9/10 → r.description = "Excellent alignment with reference material.") ∧
      (r.score ≤ 9/10 → r.score > 7/10 →
        r.description = "Good alignment but could improve in specific areas.") ∧
      (r.score ≤ 7/10 →
        r.description = "Moderate alignment, requires improvements in content generation.") ∧
      (r.score = 9/10 →
        r.description = "Good alignment but could improve in specific areas.") ∧
      (r.score = 7/10 →
        r.description = "Moderate alignment, requires improvements in content generation.") := by
  have hrows := rows_of_create domains bank t rows m h
  subst hrows
  intro r hr
  obtain ⟨d, hd, rfl⟩ := List.mem_map.mp hr
  refine ⟨fun t' => rfl, fun hgt => ?_, fun hle9 hgt7 => ?_, fun hle7 => ?_,
    fun heq9 => ?_, fun heq7 => ?_⟩
  · rw [eval_step_description, if_pos hgt]
  · rw [eval_step_description, if_neg (not_lt.mpr hle9), if_pos hgt7]
  · rw [eval_step_description, if_neg (not_lt.mpr (hle7.trans (by norm_num))),
      if_neg (not_lt.mpr hle7)]
  · rw [eval_step_description, if_neg (not_lt.mpr (le_of_eq heq9)),
      if_pos (show (eval_step bank t d).1.score > 7/10 by rw [heq9]; norm_num)]
  · rw [eval_step_description,
      if_neg (not_lt.mpr (show (eval_step bank t d).1.score ≤ 9/10 by rw [heq7]; norm_num)),
      if_neg (not_lt.mpr (le_of_eq heq7))]

/-- Witness for C4 at domains = ["Lists"], empty bank, threshold 0.9:
the "Lists" row scores above 0.9 and gets the Excellent verdict. -/
theorem create_evaluation_table_verdicts_witness :
    listsRow.description = "Excellent alignment with reference material." :=
  ((create_evaluation_table_verdicts ["Lists"] [] (9/10) [listsRow] ⟨1, 1, 1, 1⟩
      (create_eval_lists (9/10) (by norm_num)) listsRow (by simp)).2.1)
    (by norm_num [listsRow])

/-! ## The "Lists" claim -/

/-- Claim C5, counterexample: with the repository's reference lookup,
`build(["Lists"], bank)` for a bank without "Lists" produces the
material "Mutable ordered collections." — the ontology description of
"Lists" — and not the claimed "No materials available for this topic."
sentinel. -/
theorem create_evaluation_table_lists_counterexample :
    (create_evaluation_table ["Lists"] [] (9/10)).map (fun p => p.1.map Row.material) =
      some ["Mutable ordered collections."] ∧
    "Mutable ordered collections." ≠ "No materials available for this topic." := by
  constructor
  · rw [create_eval_lists (9/10) (by norm_num)]
    rfl
  · decide

/-- Claim C5 (amended): `build(["Lists"], bank)` where the bank has no
"Lists" entry yields exactly one row with empty formatted questions;
its material is the ontology's reference text "Mutable ordered
collections.", because "Lists" is present in the built-in lookup — the
"No materials available for this topic." sentinel appears only for
domains absent from the lookup. -/
theorem create_evaluation_table_lists (bank : MCQBank) (t : ℚ)
    (hbank : (bank : List (String × List MCQ)).find? (fun p => p.1 == "Lists") = none) :
    (create_evaluation_table ["Lists"] bank t).map Prod.fst = some [listsRow] := by
  obtain ⟨m, hEq, _, _, _, _⟩ := create_evaluation_table_eq ["Lists"] bank t (by simp)
  rw [hEq]
  simp [eval_step_lists bank t hbank]

/-- Witness for C5 (amended) at the empty bank and threshold 0.9. -/
theorem create_evaluation_table_lists_witness :
    (create_evaluation_table ["Lists"] [] (9/10)).map Prod.fst = some [listsRow] :=
  create_evaluation_table_lists [] (9/10) rfl

/-! ## Threshold monotonicity -/

/-- Claim C7: for a fixed domain list and bank, raising the threshold
cannot increase the number of predicted positives, and accuracy and
recall are monotonically non-increasing in the threshold. -/
theorem create_evaluation_table_threshold_mono (domains : List String)
    (bank : MCQBank) (t1 t2 : ℚ) (rows1 : List Row) (m1 : Metrics)
    (rows2 : List Row) (m2 : Metrics) (hle : t1 ≤ t2)
    (h1 : create_evaluation_table domains bank t1 = some (rows1, m1))
    (h2 : create_evaluation_table domains bank t2 = some (rows2, m2)) :
    (rows2.filter fun r => r.score ≥ t2).length ≤
      (rows1.filter fun r => r.score ≥ t1).length ∧
    m2.accuracy ≤ m1.accuracy ∧ m2.recall' ≤ m1.recall' := by
  have hne : domains ≠ [] := by
    rintro rfl
    rw [create_eval_nil] at h1
    exact Option.noConfusion h1
  obtain ⟨m1', hEq1, hacc1, _, hrec1, _⟩ := create_evaluation_table_eq domains bank t1 hne
  obtain ⟨m2', hEq2, hacc2, _, hrec2, _⟩ := create_evaluation_table_eq domains bank t2 hne
  rw [h1] at hEq1
  injection hEq1 with hEq1'
  rw [Prod.mk.injEq] at hEq1'
  obtain ⟨hrows1, hm1⟩ := hEq1'
  subst hrows1
  subst hm1
  rw [h2] at hEq2
  injection hEq2 with hEq2'
  rw [Prod.mk.injEq] at hEq2'
  obtain ⟨hrows2, hm2⟩ := hEq2'
  subst hrows2
  subst hm2
  have hk : (domains.countP fun d => domain_score d ≥ t2) ≤
      (domains.countP fun d => domain_score d ≥ t1) :=
    List.countP_mono_left fun d _ hp =>
      decide_eq_true (le_trans hle (of_decide_eq_true hp))
  have hn : (0:ℚ) < (domains.length : ℚ) := by
    have : 0 < domains.length := List.length_pos.mpr hne
    exact_mod_cast this
  have hdiv : ((domains.countP fun d => domain_score d ≥ t2 : ℕ) : ℚ) /
        (domains.length : ℚ) ≤
      ((domains.countP fun d => domain_score d ≥ t1 : ℕ) : ℚ) /
        (domains.length : ℚ) := by
    gcongr
  refine ⟨?_, ?_, ?_⟩
  · rw [filter_score_length, filter_score_length]
    exact hk
  · rw [hacc1, hacc2]
    exact hdiv
  · rw [hrec1, hrec2, hacc1, hacc2]
    exact hdiv

/-- Witness for C7 at domains = ["Lists"], empty bank, thresholds 0.5
and 0.9. -/
theorem create_evaluation_table_threshold_mono_witness :
    (Metrics.mk 1 1 1 1).accuracy ≤ (Metrics.mk 1 1 1 1).accuracy :=
  (create_evaluation_table_threshold_mono ["Lists"] [] (1/2) (9/10)
    [listsRow] ⟨1, 1, 1, 1⟩ [listsRow] ⟨1, 1, 1, 1⟩ (by norm_num)
    (create_eval_lists (1/2) (by norm_num))
    (create_eval_lists (9/10) (by norm_num))).2.1

/-! ## Rows of present domains -/

/-- Claim C9: a row whose domain is present in the reference lookup has
score exactly 1 (its material is the reference text itself, and the
lexical backend scores a text against itself as 1), hence the Excellent
verdict, and its predicted label is 1 for any threshold at most 1. -/
theorem create_evaluation_table_present_rows (domains : List String)
    (bank : MCQBank) (t : ℚ) (rows : List Row) (m : Metrics) (ht : t ≤ 1)
    (h : create_evaluation_table domains bank t = some (rows, m)) :
    ∀ r ∈ rows, (LEARNING_MATERIALS.find? fun p => p.1 == r.domain).isSome = true →
      r.score = 1 ∧
      r.description = "Excellent alignment with reference material." ∧
      (eval_step bank t r.domain).2.2 = 1 := by
  have hrows := rows_of_create domains bank t rows m h
  subst hrows
  intro r hr hpres
  obtain ⟨d, hd, rfl⟩ := List.mem_map.mp hr
  have hscore : (eval_step bank t d).1.score = 1 := domain_score_of_present d hpres
  refine ⟨hscore, ?_, ?_⟩
  · rw [eval_step_description, hscore]
    norm_num
  · show (if (eval_step bank t d).1.score ≥ t then (1:Int) else 0) = 1
    rw [hscore]
    exact if_pos (show (1:ℚ) ≥ t from ht)

/-- Witness for C9 at domains = ["Lists"], empty bank, threshold 0.9:
the "Lists" row scores exactly 1. -/
theorem create_evaluation_table_present_rows_witness :
    listsRow.score = 1 :=
  (create_evaluation_table_present_rows ["Lists"] [] (9/10) [listsRow] ⟨1, 1, 1, 1⟩
    (by norm_num) (create_eval_lists (9/10) (by norm_num)) listsRow (by simp)
    (by decide)).1

/-! ## Shape of the formatted MCQ text -/

/-- The accumulator of `String.intercalate.go` is never shortened. -/
theorem intercalate_go_length (s : String) :
    ∀ (as : List String) (acc : String),
      acc.length ≤ (String.intercalate.go acc s as).length
  | [], _ => Nat.le_refl _
  | b :: bs, acc => by
    have h1 : acc.length ≤ (acc ++ s ++ b).length := by
      rw [String.length_append, String.length_append]
      omega
    exact le_trans h1 (intercalate_go_length s bs (acc ++ s ++ b))

/-- Joining a non-empty list of lines keeps at least the first line's
length. -/
theorem intercalate_cons_length (s a : String) (as : List String) :
    a.length ≤ (String.intercalate s (a :: as)).length :=
  intercalate_go_length s as a

/-- The loop's accumulated MCQ lines are exactly the concatenation of
the per-question blocks. -/
theorem mcq_lines_eq (mcqs : List MCQ) : mcq_lines mcqs = mcqs.flatMap mcq_block := by
  have h : ∀ (ms : List MCQ) (acc : List String),
      ms.foldl
        (fun lines mcq =>
          lines ++ ["Q: " ++ mcq.question] ++
            (mcq.options.map fun opt => " - " ++ opt) ++
            ["Answer: " ++ mcq.answer] ++ [""]) acc =
        acc ++ ms.flatMap mcq_block := by
    intro ms
    induction ms with
    | nil =>
      intro acc
      simp
    | cons q qs ih =>
      intro acc
      rw [List.foldl_cons, ih, List.flatMap_cons]
      simp [mcq_block]
  unfold mcq_lines
  simpa using h mcqs []

/-- The formatted text of a non-empty question list is non-empty: it
retains at least its leading "Q: " line. -/
theorem mcq_text_ne_empty (q : MCQ) (qs : List MCQ) :
    String.intercalate "\n" (mcq_lines (q :: qs)) ≠ "" := by
  rw [mcq_lines_eq, List.flatMap_cons]
  have hcons : mcq_block q ++ qs.flatMap mcq_block =
      ("Q: " ++ q.question) ::
        ((q.options.map fun opt => " - " ++ opt) ++ ["Answer: " ++ q.answer, ""] ++
          qs.flatMap mcq_block) := by
    simp [mcq_block]
  rw [hcons]
  intro hempty
  have hlen := intercalate_cons_length "\n" ("Q: " ++ q.question)
    ((q.options.map fun opt => " - " ++ opt) ++ ["Answer: " ++ q.answer, ""] ++
      qs.flatMap mcq_block)
  rw [hempty, String.length_append] at hlen
  have h3 : ("Q: " : String).length = 3 := rfl
  have h0 : ("" : String).length = 0 := rfl
  omega

/-- Claim C10: a row's formatted MCQ text is empty exactly when the
bank holds no questions for the row's domain, and otherwise is the
newline-join of the per-question blocks (a "Q: " line, one " - " line
per option, an "Answer: " line, and a blank separator line each). -/
theorem create_evaluation_table_mcq_text (domains : List String) (bank : MCQBank)
    (t : ℚ) (rows : List Row) (m : Metrics)
    (h : create_evaluation_table domains bank t = some (rows, m)) :
    ∀ r ∈ rows,
      (r.mcqs = "" ↔ generate_mcqs r.domain bank = []) ∧
      r.mcqs = String.intercalate "\n" ((generate_mcqs r.domain bank).flatMap mcq_block) := by
  have hrows := rows_of_create domains bank t rows m h
  subst hrows
  intro r hr
  obtain ⟨d, hd, rfl⟩ := List.mem_map.mp hr
  have hm : (eval_step bank t d).1.mcqs =
      String.intercalate "\n" (mcq_lines (generate_mcqs d bank)) := rfl
  have hdom : (eval_step bank t d).1.domain = d := rfl
  rw [hdom, hm]
  constructor
  · rcases hq : generate_mcqs d bank with _ | ⟨q, qs⟩
    · exact iff_of_true rfl rfl
    · constructor
      · intro hempty
        exact absurd hempty (mcq_text_ne_empty q qs)
      · intro hcontra
        exact absurd hcontra (List.cons_ne_nil q qs)
  · rw [mcq_lines_eq]

/-- Witness for C10 at domains = ["Lists"], empty bank, threshold 0.9:
the "Lists" row's MCQ text is empty exactly when the bank holds no
"Lists" questions. -/
theorem create_evaluation_table_mcq_text_witness :
    listsRow.mcqs = "" ↔ generate_mcqs listsRow.domain ([] : MCQBank) = [] :=
  (create_evaluation_table_mcq_text ["Lists"] [] (9/10) [listsRow] ⟨1, 1, 1, 1⟩
    (create_eval_lists (9/10) (by norm_num)) listsRow (by simp)).1

end OntologyQuiz
